import Mathlib

/-!
Verification development for the PixiePinks double-entry ledger.

The Python sources are shallowly embedded here:
* monetary amounts (Python floats holding 2-decimal monetary values,
  stored in `Numeric(14, 2)` columns) are modelled as exact rationals;
* dates are modelled as integers (only `≤` comparisons matter);
* the relational store (`accounts`, `journal_entries`, `journal_lines`
  tables) is a `Ledger` of three lists; SQL inner joins on the `id`
  primary-key columns are embedded as existential matches (`List.any`),
  which coincides with SQL join multiplicity because `id` columns are
  primary keys (uniqueness is taken as an explicit hypothesis where a
  proof needs it);
* HTML-form fields arrive in Python as strings (`float(dr or 0)`,
  `int(pid) if pid else None`); they are modelled post-parse, with
  `Option` standing for the empty / absent field.
-/

namespace PixiePinks

/-- `models.Account` (src/models.py): `subtype` is a nullable column; the
seeded chart never sets it. -/
structure Account where
  id : Nat
  code : String
  name : String
  type : String
  subtype : Option String
  description : String
deriving Repr, DecidableEq

/-- `models.JournalEntry` (src/models.py); `created_at` plays no role in
any claim and is omitted. -/
structure JournalEntry where
  id : Nat
  date : Int
  memo : String
deriving Repr, DecidableEq

/-- `models.JournalLine` (src/models.py). -/
structure JournalLine where
  id : Nat
  entry_id : Nat
  account_id : Nat
  description : String
  debit : ℚ
  credit : ℚ
  party_type : Option String
  party_id : Option Nat
  qty : ℚ
deriving Repr, DecidableEq

/-- The relational store owned by the ledger (the three core tables). -/
structure Ledger where
  accounts : List Account
  entries : List JournalEntry
  lines : List JournalLine
deriving Repr, DecidableEq

/-- Inclusive date-range test: the conjunction of the optional
`JournalEntry.date >= start` and `JournalEntry.date <= end` filters used
by the report queries in src/main.py. -/
def dateInRange (s e : Option Int) (d : Int) : Bool :=
  (match s with
   | none => true
   | some sd => decide (sd ≤ d)) &&
  (match e with
   | none => true
   | some ed => decide (d ≤ ed))

/-- Embedding of `.join(JournalEntry)` plus the optional date filters:
the line with entry id `eid` survives the join iff some stored entry has
that id and a date in range. -/
def entryInRange (l : Ledger) (s e : Option Int) (eid : Nat) : Bool :=
  l.entries.any fun en => en.id == eid && dateInRange s e en.date

/-- `func.sum(JournalLine.debit)` with `coalesce(_, 0)`. -/
def sumDebits (ls : List JournalLine) : ℚ :=
  (ls.map fun jl => jl.debit).sum

/-- `func.sum(JournalLine.credit)` with `coalesce(_, 0)`. -/
def sumCredits (ls : List JournalLine) : ℚ :=
  (ls.map fun jl => jl.credit).sum

/-- The per-account debit aggregate used by `trial_balance` and
`balance_sheet.account_balance` (src/main.py): sum of `debit` over the
account's lines joined to entries whose date is in range. -/
def accDr (l : Ledger) (s e : Option Int) (accId : Nat) : ℚ :=
  sumDebits (l.lines.filter fun jl =>
    jl.account_id == accId && entryInRange l s e jl.entry_id)

/-- The per-account credit aggregate, same filters as `accDr`. -/
def accCr (l : Ledger) (s e : Option Int) (accId : Nat) : ℚ :=
  sumCredits (l.lines.filter fun jl =>
    jl.account_id == accId && entryInRange l s e jl.entry_id)

/-- Floor of a rational (`den` is positive, so flooring division of
`num` by `den` is the mathematical floor). -/
def qfloor (x : ℚ) : ℤ :=
  x.num.fdiv (x.den : ℤ)

/-- Python's `round(x, 2)`: round `100 * x` to the nearest integer,
ties to the even integer (banker's rounding), divide back by 100. -/
def round2 (x : ℚ) : ℚ :=
  let y := 100 * x
  let f := qfloor y
  let r := y - (f : ℚ)
  let n : ℤ :=
    if r < 1 / 2 then f
    else if 1 / 2 < r then f + 1
    else if f % 2 = 0 then f else f + 1
  (n : ℚ) / 100

/-- Autoincrement primary key for a new `journal_entries` row, as
assigned at `db.flush()`. -/
def nextEntryId (l : Ledger) : Nat :=
  (l.entries.foldl (fun m en => max m en.id) 0) + 1

/-- First autoincrement primary key for new `journal_lines` rows. -/
def nextLineId (l : Ledger) : Nat :=
  (l.lines.foldl (fun m jl => max m jl.id) 0) + 1

/-- The `zip` loop of `create_entry` (src/main.py:271-287): one
`JournalLine` per tuple, stopping at the shortest of the seven parallel
form lists.  `debit`/`credit`/`qty` fields parse `float(x or 0)` (the
`Option` is the empty field, defaulting to 0), `party_type` applies
`pt or None`, `party_id` parses `int(pid) if pid else None`. -/
def buildLines (lineId entryId : Nat) :
    List Nat → List String → List (Option ℚ) → List (Option ℚ) →
    List String → List (Option Nat) → List (Option ℚ) → List JournalLine
  | a :: as, d :: ds, dr :: drs, cr :: crs, pt :: pts, pid :: pids, q :: qs =>
      { id := lineId, entry_id := entryId, account_id := a,
        description := d.trim, debit := dr.getD 0, credit := cr.getD 0,
        party_type := if pt = "" then none else some pt,
        party_id := pid, qty := q.getD 0 } ::
        buildLines (lineId + 1) entryId as ds drs crs pts pids qs
  | _, _, _, _, _, _, _ => []

/-- The parsed form data submitted to `POST /entries`. -/
structure EntryForm where
  date : Int
  memo : String
  accounts : List Nat
  descriptions : List String
  debits : List (Option ℚ)
  credits : List (Option ℚ)
  party_types : List String
  party_ids : List (Option Nat)
  qtys : List (Option ℚ)
deriving Repr, DecidableEq

/-- Outcome of `create_entry`: redirect to `/entries` on success, or to
`/entries?error=Not%20balanced` after the rollback. -/
inductive CreateResult where
  | ok
  | notBalanced
deriving Repr, DecidableEq

/-- The journal lines a form submission builds (the zipped tuples). -/
def formLines (l : Ledger) (f : EntryForm) : List JournalLine :=
  buildLines (nextLineId l) (nextEntryId l) f.accounts f.descriptions
    f.debits f.credits f.party_types f.party_ids f.qtys

/-- `create_entry` (src/main.py:250-294): build the entry row and the
zipped lines, accumulate `total_debit` / `total_credit`, and commit the
whole transaction only when the totals agree after `round(_, 2)`;
otherwise `db.rollback()` discards the flushed entry and lines and the
store is unchanged.  The seven list parameters are declared as required
`Form(...)` fields (src/main.py:254-260), and the framework rejects a
request missing any of them — an empty list included — with a 422
validation error before this body runs, so the handler is only ever
reached with all seven lists non-empty. -/
def create_entry (l : Ledger) (f : EntryForm) : Ledger × CreateResult :=
  let eid := nextEntryId l
  let newLines := formLines l f
  let total_debit := sumDebits newLines
  let total_credit := sumCredits newLines
  if round2 total_debit ≠ round2 total_credit then
    (l, CreateResult.notBalanced)
  else
    ({ l with
        entries := l.entries ++ [{ id := eid, date := f.date, memo := f.memo }],
        lines := l.lines ++ newLines }, CreateResult.ok)

/-- Outcome of a delete route: redirect on success, HTTP 404 when the
row does not exist. -/
inductive DeleteResult where
  | ok
  | notFound
deriving Repr, DecidableEq

/-- `delete_entry` (src/main.py:296-304): `db.get` then `db.delete`;
the `cascade="all, delete-orphan"` relationship on `JournalEntry.lines`
(src/models.py:36) deletes every line of the entry in the same
transaction. -/
def delete_entry (l : Ledger) (entryId : Nat) : Ledger × DeleteResult :=
  if l.entries.any fun en => en.id == entryId then
    ({ l with
        entries := l.entries.filter fun en => !(en.id == entryId),
        lines := l.lines.filter fun jl => !(jl.entry_id == entryId) },
     DeleteResult.ok)
  else
    (l, DeleteResult.notFound)

/-- An ORM-level `session.delete(account)` as the model declarations
specify it: the `cascade="all, delete-orphan"` relationship on
`Account.lines` (src/models.py:27) makes the ORM delete every
`JournalLine` referencing the account before deleting the account row,
so the column-level `ondelete="RESTRICT"` (src/models.py:42) is never
reached (and is unenforced under the default SQLite configuration,
which leaves foreign keys off).  No HTTP route exposes this operation;
it is the semantics the model layer itself declares. -/
def delete_account_orm (l : Ledger) (accId : Nat) : Ledger :=
  { l with
      accounts := l.accounts.filter fun a => !(a.id == accId),
      lines := l.lines.filter fun jl => !(jl.account_id == accId) }

/-- `utils.DEBIT_NORMAL` (src/utils.py:7). -/
def DEBIT_NORMAL : List String := ["ASSET", "EXPENSE"]

/-- `utils.CREDIT_NORMAL` (src/utils.py:8). -/
def CREDIT_NORMAL : List String := ["LIABILITY", "EQUITY", "INCOME"]

/-- Return value of `utils.account_balance_normal`. -/
structure BalNorm where
  debit : ℚ
  credit : ℚ
  normal_balance : ℚ
deriving Repr, DecidableEq

/-- `utils.account_balance_normal` (src/utils.py:22-48).  With a date
bound present the debit/credit sums run over the account's lines joined
to `Account` (the line's `account_id` must match a stored account) and
to `JournalEntry` with the date filters; with no bound they run over
the account's lines alone (no join).  The raw balance `dr - cr` is
presented debit-normal or credit-normal according to the account type. -/
def account_balance_normal (l : Ledger) (acc : Account) (s e : Option Int) :
    BalNorm :=
  let dr :=
    if s.isSome || e.isSome then
      sumDebits (l.lines.filter fun jl =>
        jl.account_id == acc.id &&
        (l.accounts.any fun a => a.id == jl.account_id) &&
        entryInRange l s e jl.entry_id)
    else
      sumDebits (l.lines.filter fun jl => jl.account_id == acc.id)
  let cr :=
    if s.isSome || e.isSome then
      sumCredits (l.lines.filter fun jl =>
        jl.account_id == acc.id &&
        (l.accounts.any fun a => a.id == jl.account_id) &&
        entryInRange l s e jl.entry_id)
    else
      sumCredits (l.lines.filter fun jl => jl.account_id == acc.id)
  let bal := dr - cr
  if DEBIT_NORMAL.contains acc.type then
    { debit := max bal 0, credit := max (-bal) 0, normal_balance := bal }
  else
    let b := -bal
    { debit := max (-b) 0, credit := max b 0, normal_balance := b }

/-- A row of the trial-balance report. -/
structure TBRow where
  code : String
  name : String
  debit : ℚ
  credit : ℚ
deriving Repr, DecidableEq

/-- The trial-balance report data. -/
structure TBReport where
  rows : List TBRow
  total_debit : ℚ
  total_credit : ℚ
deriving Repr, DecidableEq

/-- `ORDER BY accounts.code` (ascending); insertion sort is a stable
sort, matching the SQL ordering on the unique `code` column. -/
def sortByCode (accs : List Account) : List Account :=
  List.insertionSort (fun a b => a.code ≤ b.code) accs

/-- `trial_balance` (src/main.py:308-354): accounts ordered by code;
per account the raw `dr - cr` over the optional date range, split into
a debit column (`bal` if positive) and a credit column (`-bal` if
negative); the totals accumulate the two columns. -/
def trial_balance (l : Ledger) (s e : Option Int) : TBReport :=
  let rows := (sortByCode l.accounts).map fun acc =>
    let dr_amt := accDr l s e acc.id
    let cr_amt := accCr l s e acc.id
    let bal := dr_amt - cr_amt
    let debit := if bal > 0 then bal else 0
    let credit := if bal < 0 then -bal else 0
    ({ code := acc.code, name := acc.name, debit := debit, credit := credit } : TBRow)
  { rows := rows,
    total_debit := (rows.map fun r => r.debit).sum,
    total_credit := (rows.map fun r => r.credit).sum }

/-- The income-statement report data. -/
structure ISReport where
  income : ℚ
  cogs : ℚ
  other_exp : ℚ
  gross_profit : ℚ
  net_profit : ℚ
deriving Repr, DecidableEq

/-- Embedding of `.join(Account).filter(...)`: the line's account id
matches a stored account satisfying the filter. -/
def accountMatch (l : Ledger) (p : Account → Bool) (accId : Nat) : Bool :=
  l.accounts.any fun a => a.id == accId && p a

/-- `income_statement` (src/main.py:356-422): all-zero report when
either bound is missing; otherwise `income` sums credits over INCOME
accounts, `cogs` sums debits over the account with code "5000",
`other_exp` sums debits over EXPENSE accounts with code ≠ "5000", all
restricted to entries dated in `[start, end]`. -/
def income_statement (l : Ledger) (s e : Option Int) : ISReport :=
  match s, e with
  | some sd, some ed =>
    let income := sumCredits (l.lines.filter fun jl =>
      accountMatch l (fun a => a.type == "INCOME") jl.account_id &&
      entryInRange l (some sd) (some ed) jl.entry_id)
    let cogs := sumDebits (l.lines.filter fun jl =>
      accountMatch l (fun a => a.code == "5000") jl.account_id &&
      entryInRange l (some sd) (some ed) jl.entry_id)
    let other_exp := sumDebits (l.lines.filter fun jl =>
      accountMatch l (fun a => a.type == "EXPENSE" && a.code != "5000") jl.account_id &&
      entryInRange l (some sd) (some ed) jl.entry_id)
    let gross_profit := income - cogs
    let net_profit := gross_profit - other_exp
    { income := income, cogs := cogs, other_exp := other_exp,
      gross_profit := gross_profit, net_profit := net_profit }
  | _, _ =>
    { income := 0, cogs := 0, other_exp := 0, gross_profit := 0, net_profit := 0 }

/-- The balance-sheet report data. -/
structure BSReport where
  assets_current : List (String × ℚ)
  assets_non_current : List (String × ℚ)
  liab_current : List (String × ℚ)
  liab_non_current : List (String × ℚ)
  equity_capital : List (String × ℚ)
  retained_earnings : ℚ
  assets_total : ℚ
  liab_total : ℚ
  equity_total : ℚ
  liab_equity_total : ℚ
deriving Repr, DecidableEq

/-- The inner `account_balance` of `balance_sheet` (src/main.py:442-449):
debit and credit sums over the account's lines joined to entries dated
`<= as_of`, normalized `dr - cr` for ASSET/EXPENSE and `cr - dr`
otherwise. -/
def bsAccountBalance (l : Ledger) (asOf : Int) (acc : Account) : ℚ :=
  let dr := accDr l none (some asOf) acc.id
  let cr := accCr l none (some asOf) acc.id
  if acc.type == "ASSET" || acc.type == "EXPENSE" then dr - cr else cr - dr

/-- The mutable state of the account loop in `balance_sheet`. -/
structure BSAccum where
  assets_current : List (String × ℚ)
  assets_non_current : List (String × ℚ)
  liab_current : List (String × ℚ)
  liab_non_current : List (String × ℚ)
  equity_capital : List (String × ℚ)
  retained_earnings : ℚ
deriving Repr, DecidableEq

/-- One iteration of the `balance_sheet` account loop
(src/main.py:458-480): skip balances below the 0.01 materiality
threshold, then bucket by `(type, subtype)`; INCOME adds to and EXPENSE
subtracts from `retained_earnings`; every other `(type, subtype)`
combination falls through with no effect. -/
def bsStep (l : Ledger) (asOf : Int) (st : BSAccum) (acc : Account) : BSAccum :=
  let bal := bsAccountBalance l asOf acc
  if |bal| < 1 / 100 then st
  else if acc.type == "ASSET" then
    if acc.subtype == some "CURRENT_ASSET" then
      { st with assets_current := st.assets_current ++ [(acc.name, bal)] }
    else if acc.subtype == some "NON_CURRENT_ASSET" then
      { st with assets_non_current := st.assets_non_current ++ [(acc.name, bal)] }
    else st
  else if acc.type == "LIABILITY" then
    if acc.subtype == some "CURRENT_LIABILITY" then
      { st with liab_current := st.liab_current ++ [(acc.name, bal)] }
    else if acc.subtype == some "NON_CURRENT_LIABILITY" then
      { st with liab_non_current := st.liab_non_current ++ [(acc.name, bal)] }
    else st
  else if acc.type == "EQUITY" then
    if acc.subtype == some "CAPITAL" then
      { st with equity_capital := st.equity_capital ++ [(acc.name, bal)] }
    else if acc.subtype == some "RETAINED_EARNINGS" then
      { st with retained_earnings := st.retained_earnings + bal }
    else st
  else if acc.type == "INCOME" then
    { st with retained_earnings := st.retained_earnings + bal }
  else if acc.type == "EXPENSE" then
    { st with retained_earnings := st.retained_earnings - bal }
  else st

/-- `balance_sheet` (src/main.py:426-496): the empty/zero report when
`as_of` is absent; otherwise run the bucketing loop over all accounts
and compute the four totals. -/
def balance_sheet (l : Ledger) (asOf : Option Int) : BSReport :=
  match asOf with
  | none =>
    { assets_current := [], assets_non_current := [],
      liab_current := [], liab_non_current := [],
      equity_capital := [], retained_earnings := 0,
      assets_total := 0, liab_total := 0,
      equity_total := 0, liab_equity_total := 0 }
  | some d =>
    let st := l.accounts.foldl (bsStep l d)
      { assets_current := [], assets_non_current := [],
        liab_current := [], liab_non_current := [],
        equity_capital := [], retained_earnings := 0 }
    let assets_total := ((st.assets_current ++ st.assets_non_current).map Prod.snd).sum
    let liab_total := ((st.liab_current ++ st.liab_non_current).map Prod.snd).sum
    let eq_cap_total := (st.equity_capital.map Prod.snd).sum
    let equity_total := eq_cap_total + st.retained_earnings
    let liab_equity_total := liab_total + equity_total
    { assets_current := st.assets_current,
      assets_non_current := st.assets_non_current,
      liab_current := st.liab_current,
      liab_non_current := st.liab_non_current,
      equity_capital := st.equity_capital,
      retained_earnings := st.retained_earnings,
      assets_total := assets_total, liab_total := liab_total,
      equity_total := equity_total, liab_equity_total := liab_equity_total }

/-- The seeded chart of accounts (src/seed.py:5-28): `seed_accounts`
passes neither `subtype` nor an explicit id, so every seeded account
has a NULL subtype; ids are the autoincrement keys 1..17 assigned on
first startup against an empty table. -/
def seedAccounts : List Account :=
  (List.enum [
    ("1000", "Cash on Hand", "ASSET"),
    ("1010", "Bank - Current Account", "ASSET"),
    ("1100", "Accounts Receivable", "ASSET"),
    ("1200", "Inventory", "ASSET"),
    ("1500", "Prepaid Expenses", "ASSET"),
    ("2000", "Accounts Payable", "LIABILITY"),
    ("2100", "Taxes Payable (VAT/NBT)", "LIABILITY"),
    ("3000", "Owner's Equity", "EQUITY"),
    ("3100", "Retained Earnings", "EQUITY"),
    ("4000", "Sales Revenue", "INCOME"),
    ("4100", "Other Income", "INCOME"),
    ("5000", "Cost of Goods Sold", "EXPENSE"),
    ("5100", "Delivery & Courier Expense", "EXPENSE"),
    ("5200", "Advertising & Marketing", "EXPENSE"),
    ("5300", "Rent Expense", "EXPENSE"),
    ("5400", "Utilities Expense", "EXPENSE"),
    ("5500", "Bank Charges", "EXPENSE")]).map
    fun p => { id := p.1 + 1, code := p.2.1, name := p.2.2.1,
               type := p.2.2.2, subtype := none, description := "" }

/-- Database well-formedness, guaranteed by the schema of src/models.py:
`accounts.id` and `journal_entries.id` are primary keys (unique), and
every `journal_lines.account_id` carries a foreign key into `accounts`. -/
def Ledger.WellFormed (l : Ledger) : Prop :=
  (l.accounts.map fun a => a.id).Nodup ∧
  (l.entries.map fun en => en.id).Nodup ∧
  ∀ jl ∈ l.lines, ∃ a ∈ l.accounts, a.id = jl.account_id

/-- The stored lines belonging to one journal entry. -/
def entryLines (l : Ledger) (eid : Nat) : List JournalLine :=
  l.lines.filter fun jl => jl.entry_id == eid

/-- The balanced-entry invariant of the spec: every stored entry's line
debits sum to its line credits. -/
def Ledger.Balanced (l : Ledger) : Prop :=
  ∀ en ∈ l.entries, sumDebits (entryLines l en.id) = sumCredits (entryLines l en.id)

theorem sum_map_sub {β : Type} (xs : List β) (f g : β → ℚ) :
    (xs.map fun x => f x - g x).sum = (xs.map f).sum - (xs.map g).sum := by
  induction xs with
  | nil => simp
  | cons x xs ih => simp only [List.map_cons, List.sum_cons, ih]; ring

theorem sum_filter_disjoint {β : Type} (xs : List β) (p q : β → Bool) (f : β → ℚ)
    (h : ∀ x ∈ xs, ¬(p x = true ∧ q x = true)) :
    ((xs.filter fun x => p x || q x).map f).sum
      = ((xs.filter p).map f).sum + ((xs.filter q).map f).sum := by
  induction xs with
  | nil => simp
  | cons x xs ih =>
    have hx := h x (by simp)
    have hrest : ∀ y ∈ xs, ¬(p y = true ∧ q y = true) := fun y hy => h y (by simp [hy])
    cases hp : p x <;> cases hq : q x
    · simp [List.filter_cons, hp, hq, ih hrest]
    · simp [List.filter_cons, hp, hq, ih hrest]; ring
    · simp [List.filter_cons, hp, hq, ih hrest]; ring
    · exact absurd ⟨hp, hq⟩ hx

theorem sum_group {β : Type} (keys : List Nat) (xs : List β) (keyOf : β → Nat)
    (f : β → ℚ) (hnd : keys.Nodup) :
    (keys.map fun k => ((xs.filter fun x => keyOf x == k).map f).sum).sum
      = ((xs.filter fun x => keys.any fun k => keyOf x == k).map f).sum := by
  induction keys with
  | nil => simp
  | cons k ks ih =>
    have hk : k ∉ ks := (List.nodup_cons.mp hnd).1
    have hnd' : ks.Nodup := (List.nodup_cons.mp hnd).2
    have hdisj : ∀ x ∈ xs,
        ¬((keyOf x == k) = true ∧ (ks.any fun k2 => keyOf x == k2) = true) := by
      intro x _ hc
      obtain ⟨h1, h2⟩ := hc
      rw [beq_iff_eq] at h1
      obtain ⟨k2, hk2mem, hk2⟩ := List.any_eq_true.mp h2
      rw [beq_iff_eq] at hk2
      refine hk ?_
      have hkk2 : k = k2 := h1.symm.trans hk2
      rw [hkk2]; exact hk2mem
    have hpred : (fun x => (k :: ks).any fun k2 => keyOf x == k2)
        = fun x => ((keyOf x == k) || ks.any fun k2 => keyOf x == k2) := by
      funext x; simp [List.any_cons]
    rw [List.map_cons, List.sum_cons, ih hnd', hpred,
      sum_filter_disjoint xs _ _ f hdisj]

theorem accDr_sub_accCr (l : Ledger) (s e : Option Int) (k : Nat) :
    accDr l s e k - accCr l s e k
      = ((l.lines.filter fun jl => jl.account_id == k && entryInRange l s e jl.entry_id).map
          fun jl => jl.debit - jl.credit).sum := by
  rw [sum_map_sub]; rfl

theorem entryInRange_eq (l : Ledger) (s e : Option Int) (k : Nat) :
    entryInRange l s e k
      = ((l.entries.filter fun en => dateInRange s e en.date).map fun en => en.id).any
          fun k2 => k == k2 := by
  rw [Bool.eq_iff_iff]
  simp only [entryInRange, List.any_eq_true, List.mem_filter,
    List.mem_map, Bool.and_eq_true, beq_iff_eq]
  constructor
  · rintro ⟨en, hen, hid, hdate⟩
    exact ⟨en.id, ⟨en, ⟨hen, hdate⟩, rfl⟩, hid.symm⟩
  · rintro ⟨k2, ⟨en, ⟨hen, hdate⟩, rfl⟩, rfl⟩
    exact ⟨en, hen, rfl, hdate⟩

theorem sum_over_accounts (l : Ledger) (s e : Option Int) (accs : List Account)
    (hnd : (accs.map fun a => a.id).Nodup) (f : JournalLine → ℚ) :
    (accs.map fun a =>
        ((l.lines.filter fun jl =>
            jl.account_id == a.id && entryInRange l s e jl.entry_id).map f).sum).sum
      = ((l.lines.filter fun jl =>
            (accs.any fun a => jl.account_id == a.id) &&
              entryInRange l s e jl.entry_id).map f).sum := by
  have h1 : ∀ p : JournalLine → Bool,
      (l.lines.filter fun jl => p jl && entryInRange l s e jl.entry_id)
        = (l.lines.filter fun jl => entryInRange l s e jl.entry_id).filter p := by
    intro p; rw [List.filter_filter]
  have h2 : (accs.map fun a =>
        ((l.lines.filter fun jl =>
            jl.account_id == a.id && entryInRange l s e jl.entry_id).map f).sum)
      = ((accs.map fun a => a.id).map fun k =>
          (((l.lines.filter fun jl => entryInRange l s e jl.entry_id).filter
              fun jl => jl.account_id == k).map f).sum) := by
    rw [List.map_map]
    exact List.map_congr_left fun a _ => by rw [h1]; rfl
  have h4 : (fun jl : JournalLine => (accs.map fun a => a.id).any fun k => jl.account_id == k)
      = fun jl => accs.any fun a => jl.account_id == a.id := by
    funext jl
    rw [Bool.eq_iff_iff]
    simp only [List.any_eq_true, List.mem_map]
    constructor
    · rintro ⟨k, ⟨a, ha, rfl⟩, h⟩; exact ⟨a, ha, h⟩
    · rintro ⟨a, ha, h⟩; exact ⟨a.id, ⟨a, ha, rfl⟩, h⟩
  rw [h2, sum_group _ _ _ f hnd, h1, h4]

theorem raw_net_zero (l : Ledger) (s e : Option Int)
    (hwf : l.WellFormed) (hbal : l.Balanced) :
    (l.accounts.map fun acc => accDr l s e acc.id - accCr l s e acc.id).sum = 0 := by
  obtain ⟨hacc, hent, hfk⟩ := hwf
  have h1 : (l.accounts.map fun acc => accDr l s e acc.id - accCr l s e acc.id)
      = l.accounts.map fun acc =>
          ((l.lines.filter fun jl =>
              jl.account_id == acc.id && entryInRange l s e jl.entry_id).map
            fun jl => jl.debit - jl.credit).sum :=
    List.map_congr_left fun acc _ => accDr_sub_accCr l s e acc.id
  rw [h1, sum_over_accounts l s e l.accounts hacc fun jl => jl.debit - jl.credit]
  have h2 : (l.lines.filter fun jl =>
        (l.accounts.any fun a => jl.account_id == a.id) &&
          entryInRange l s e jl.entry_id)
      = l.lines.filter fun jl => entryInRange l s e jl.entry_id := by
    apply List.filter_congr
    intro jl hjl
    obtain ⟨a, ha, haid⟩ := hfk jl hjl
    have hany : (l.accounts.any fun a2 => jl.account_id == a2.id) = true :=
      List.any_eq_true.mpr ⟨a, ha, by rw [beq_iff_eq]; exact haid.symm⟩
    rw [hany, Bool.true_and]
  rw [h2]
  have h3 : (fun jl : JournalLine => entryInRange l s e jl.entry_id)
      = fun jl =>
          ((l.entries.filter fun en => dateInRange s e en.date).map fun en => en.id).any
            fun k => jl.entry_id == k := by
    funext jl; exact entryInRange_eq l s e jl.entry_id
  have hsub : ((l.entries.filter fun en => dateInRange s e en.date).map fun en => en.id).Sublist
      (l.entries.map fun en => en.id) :=
    (List.filter_sublist _).map _
  have hndK := hent.sublist hsub
  rw [h3, ← sum_group _ _ _ _ hndK]
  apply List.sum_eq_zero
  intro x hx
  obtain ⟨k, hkmem, rfl⟩ := List.mem_map.mp hx
  obtain ⟨en, henf, rfl⟩ := List.mem_map.mp hkmem
  have henl : en ∈ l.entries := (List.mem_filter.mp henf).1
  have hb := hbal en henl
  rw [sum_map_sub]
  have hd : ((l.lines.filter fun jl => jl.entry_id == en.id).map fun jl => jl.debit).sum
      = sumDebits (entryLines l en.id) := rfl
  have hc : ((l.lines.filter fun jl => jl.entry_id == en.id).map fun jl => jl.credit).sum
      = sumCredits (entryLines l en.id) := rfl
  rw [hd, hc, hb, sub_self]

/-- C1: a submitted entry whose line debit total and credit total differ
after rounding to 2 decimal places is rejected with the "Not balanced"
error signal and nothing is persisted: the resulting store is exactly
the store before the request (no JournalEntry row, no JournalLine row). -/
theorem C1_unbalanced_rejected (l : Ledger) (f : EntryForm)
    (h : round2 (sumDebits (formLines l f)) ≠ round2 (sumCredits (formLines l f))) :
    create_entry l f = (l, CreateResult.notBalanced) := by
  simp [create_entry, h]

/-- An empty store. -/
def emptyLedger : Ledger := { accounts := [], entries := [], lines := [] }

/-- A one-line form debiting 100.00 against a credit of 90.00. -/
def unbalancedForm : EntryForm :=
  { date := 5, memo := "", accounts := [1], descriptions := ["cash"],
    debits := [some 100], credits := [some 90], party_types := [""],
    party_ids := [none], qtys := [none] }

theorem C1_unbalanced_rejected_witness :
    round2 (sumDebits (formLines emptyLedger unbalancedForm))
        ≠ round2 (sumCredits (formLines emptyLedger unbalancedForm)) ∧
    create_entry emptyLedger unbalancedForm = (emptyLedger, CreateResult.notBalanced) := by
  have hd : round2 (sumDebits (formLines emptyLedger unbalancedForm)) = 100 := by
    have hq : qfloor (100 * (100 : ℚ)) = 10000 := by norm_num [qfloor]
    simp [formLines, buildLines, sumDebits, emptyLedger, unbalancedForm,
      nextEntryId, nextLineId, round2, hq]
    norm_num
  have hc : round2 (sumCredits (formLines emptyLedger unbalancedForm)) = 90 := by
    have hq : qfloor (100 * (90 : ℚ)) = 9000 := by norm_num [qfloor]
    simp [formLines, buildLines, sumCredits, emptyLedger, unbalancedForm,
      nextEntryId, nextLineId, round2, hq]
    norm_num
  have hne : round2 (sumDebits (formLines emptyLedger unbalancedForm))
      ≠ round2 (sumCredits (formLines emptyLedger unbalancedForm)) := by
    rw [hd, hc]; norm_num
  exact ⟨hne, C1_unbalanced_rejected emptyLedger unbalancedForm hne⟩

/-- C2: on a well-formed store in which every journal entry satisfies
the balance invariant, the trial balance's debit-column total equals its
credit-column total, for any of the four date-range shapes. -/
theorem C2_trial_balance_totals (l : Ledger) (s e : Option Int)
    (hwf : l.WellFormed) (hbal : l.Balanced) :
    (trial_balance l s e).total_debit = (trial_balance l s e).total_credit := by
  have key : (trial_balance l s e).total_debit - (trial_balance l s e).total_credit = 0 := by
    have htd : (trial_balance l s e).total_debit
        = ((trial_balance l s e).rows.map fun r => r.debit).sum := rfl
    have htc : (trial_balance l s e).total_credit
        = ((trial_balance l s e).rows.map fun r => r.credit).sum := rfl
    rw [htd, htc, ← sum_map_sub]
    have hrows : (trial_balance l s e).rows.map (fun r => r.debit - r.credit)
        = (sortByCode l.accounts).map fun acc => accDr l s e acc.id - accCr l s e acc.id := by
      show ((sortByCode l.accounts).map _).map _ = _
      rw [List.map_map]
      apply List.map_congr_left
      intro acc _
      dsimp only [Function.comp]
      by_cases hpos : accDr l s e acc.id - accCr l s e acc.id > 0
      · rw [if_pos hpos, if_neg (by linarith)]; ring
      · by_cases hneg : accDr l s e acc.id - accCr l s e acc.id < 0
        · rw [if_neg hpos, if_pos hneg]; ring
        · rw [if_neg hpos, if_neg hneg]; linarith
    rw [hrows]
    have hperm : ((sortByCode l.accounts).map fun acc => accDr l s e acc.id - accCr l s e acc.id).Perm
        (l.accounts.map fun acc => accDr l s e acc.id - accCr l s e acc.id) :=
      (List.perm_insertionSort _ _).map _
    rw [hperm.sum_eq]
    exact raw_net_zero l s e hwf hbal
  linarith [key]

/-- The worked example of spec §8: seeded-style Cash and Sales accounts
and one balanced entry, debit Cash 100.00 / credit Sales 100.00. -/
def sampleLedger : Ledger :=
  { accounts := [
      { id := 1, code := "1000", name := "Cash", type := "ASSET",
        subtype := none, description := "" },
      { id := 2, code := "4000", name := "Sales", type := "INCOME",
        subtype := none, description := "" }],
    entries := [{ id := 1, date := 5, memo := "" }],
    lines := [
      { id := 1, entry_id := 1, account_id := 1, description := "",
        debit := 100, credit := 0, party_type := none, party_id := none, qty := 0 },
      { id := 2, entry_id := 1, account_id := 2, description := "",
        debit := 0, credit := 100, party_type := none, party_id := none, qty := 0 }] }

theorem sampleLedger_wellFormed : sampleLedger.WellFormed := by
  unfold Ledger.WellFormed
  decide

theorem sampleLedger_balanced : sampleLedger.Balanced := by
  intro en hen
  have : en = { id := 1, date := 5, memo := "" } := by
    simpa [sampleLedger] using hen
  subst this
  simp [sumDebits, sumCredits, entryLines, sampleLedger]

theorem C2_trial_balance_totals_witness :
    (sampleLedger.WellFormed ∧ sampleLedger.Balanced) ∧
    (trial_balance sampleLedger (some 1) (some 31)).total_debit
      = (trial_balance sampleLedger (some 1) (some 31)).total_credit :=
  ⟨⟨sampleLedger_wellFormed, sampleLedger_balanced⟩,
    C2_trial_balance_totals sampleLedger (some 1) (some 31)
      sampleLedger_wellFormed sampleLedger_balanced⟩

instance : IsTotal Account fun a b => a.code ≤ b.code :=
  ⟨fun a b => le_total a.code b.code⟩

instance : IsTrans Account fun a b => a.code ≤ b.code :=
  ⟨fun _ _ _ h1 h2 => le_trans h1 h2⟩

/-- C8: the trial balance lists every stored account (the sorted list is
a permutation of the account table) in ascending `code` order, and each
row carries the raw, non-normalized `dr - cr` balance split into a debit
column (the value if positive) and a credit column (the magnitude if
negative), irrespective of the account's type. -/
theorem C8_trial_balance_rows (l : Ledger) (s e : Option Int) :
    ((trial_balance l s e).rows
      = (sortByCode l.accounts).map fun acc =>
          { code := acc.code, name := acc.name,
            debit := if accDr l s e acc.id - accCr l s e acc.id > 0 then
                accDr l s e acc.id - accCr l s e acc.id else 0,
            credit := if accDr l s e acc.id - accCr l s e acc.id < 0 then
                -(accDr l s e acc.id - accCr l s e acc.id) else 0 }) ∧
    (sortByCode l.accounts).Perm l.accounts ∧
    (trial_balance l s e).rows.Pairwise fun r1 r2 => r1.code ≤ r2.code := by
  refine ⟨rfl, List.perm_insertionSort _ _, ?_⟩
  show ((sortByCode l.accounts).map _).Pairwise _
  rw [List.pairwise_map]
  exact List.sorted_insertionSort (fun a b : Account => a.code ≤ b.code) l.accounts

/-- The length of the shortest of the seven parallel form lists: where
Python's `zip` stops. -/
def minLen7 (as : List Nat) (ds : List String) (drs crs : List (Option ℚ))
    (pts : List String) (pids : List (Option Nat)) (qs : List (Option ℚ)) : Nat :=
  min as.length (min ds.length (min drs.length (min crs.length
    (min pts.length (min pids.length qs.length)))))

/-- The form truncated to the shortest list's length in every slot. -/
def truncEntryForm (f : EntryForm) : EntryForm :=
  let n := minLen7 f.accounts f.descriptions f.debits f.credits
    f.party_types f.party_ids f.qtys
  { f with
      accounts := f.accounts.take n, descriptions := f.descriptions.take n,
      debits := f.debits.take n, credits := f.credits.take n,
      party_types := f.party_types.take n, party_ids := f.party_ids.take n,
      qtys := f.qtys.take n }

theorem buildLines_trunc (e : Nat) :
    ∀ (as : List Nat) (i : Nat) (ds : List String) (drs crs : List (Option ℚ))
      (pts : List String) (pids : List (Option Nat)) (qs : List (Option ℚ)),
      buildLines i e as ds drs crs pts pids qs
        = buildLines i e
            (as.take (minLen7 as ds drs crs pts pids qs))
            (ds.take (minLen7 as ds drs crs pts pids qs))
            (drs.take (minLen7 as ds drs crs pts pids qs))
            (crs.take (minLen7 as ds drs crs pts pids qs))
            (pts.take (minLen7 as ds drs crs pts pids qs))
            (pids.take (minLen7 as ds drs crs pts pids qs))
            (qs.take (minLen7 as ds drs crs pts pids qs)) := by
  intro as
  induction as with
  | nil =>
    intro i ds drs crs pts pids qs
    simp [minLen7, buildLines]
  | cons a as ih =>
    intro i ds drs crs pts pids qs
    cases ds with
    | nil => simp [minLen7, buildLines]
    | cons d ds =>
      cases drs with
      | nil => simp [minLen7, buildLines]
      | cons dr drs =>
        cases crs with
        | nil => simp [minLen7, buildLines]
        | cons cr crs =>
          cases pts with
          | nil => simp [minLen7, buildLines]
          | cons pt pts =>
            cases pids with
            | nil => simp [minLen7, buildLines]
            | cons pid pids =>
              cases qs with
              | nil => simp [minLen7, buildLines]
              | cons q qs =>
                have hm : minLen7 (a :: as) (d :: ds) (dr :: drs) (cr :: crs)
                    (pt :: pts) (pid :: pids) (q :: qs)
                    = minLen7 as ds drs crs pts pids qs + 1 := by
                  simp [minLen7, List.length_cons, Nat.succ_min_succ]
                rw [hm]
                simp only [List.take_succ_cons, buildLines]
                exact congrArg _ (ih (i + 1) ds drs crs pts pids qs)

/-- C10: when the seven parallel form lists have unequal lengths, only
the prefix up to the shortest list's length becomes journal lines; the
rest of the submitted data is discarded and the whole request —
including the rounded balance check — behaves exactly as if the
truncated form had been submitted. -/
theorem C10_zip_truncates (l : Ledger) (f : EntryForm) :
    formLines l f = formLines l (truncEntryForm f) ∧
    create_entry l f = create_entry l (truncEntryForm f) := by
  have h1 : formLines l f = formLines l (truncEntryForm f) := by
    simp only [formLines, truncEntryForm]
    exact buildLines_trunc (nextEntryId l) f.accounts (nextLineId l) f.descriptions
      f.debits f.credits f.party_types f.party_ids f.qtys
  refine ⟨h1, ?_⟩
  simp only [create_entry, ← h1]
  have hd : (truncEntryForm f).date = f.date := rfl
  have hm2 : (truncEntryForm f).memo = f.memo := rfl
  rw [hd, hm2]

/-- A balanced one-line submission naming account id 42, which exists in
no stored account row. -/
def ghostForm : EntryForm :=
  { date := 7, memo := "", accounts := [42], descriptions := [""],
    debits := [some 50], credits := [some 50], party_types := [""],
    party_ids := [none], qtys := [none] }

/-- The journal line the `ghostForm` submission persists. -/
def ghostLine : JournalLine :=
  { id := 1, entry_id := 1, account_id := 42, description := "".trim,
    debit := 50, credit := 50, party_type := none, party_id := none, qty := 0 }

/-- C4 fails on the account-existence half: a balanced one-line
submission whose `account_id` (42) matches no stored account is
accepted by `create_entry` and its `JournalLine` row is persisted. -/
theorem C4_ghost_account_counterexample :
    (∀ a ∈ emptyLedger.accounts, a.id ≠ 42) ∧
    (create_entry emptyLedger ghostForm).2 = CreateResult.ok ∧
    ∃ jl ∈ (create_entry emptyLedger ghostForm).1.lines, jl.account_id = 42 := by
  refine ⟨?_, ?_, ?_⟩
  · intro a ha; simp [emptyLedger] at ha
  · simp [create_entry, formLines, buildLines, sumDebits, sumCredits,
      emptyLedger, ghostForm, nextEntryId, nextLineId]
  · refine ⟨ghostLine, ?_, rfl⟩
    simp [create_entry, formLines, buildLines, sumDebits, sumCredits,
      emptyLedger, ghostForm, ghostLine, nextEntryId, nextLineId]

/-- C4 (amended): a zero-line submission never reaches the handler —
the seven line lists are required form parameters, so the framework
rejects it with a 422 validation error and nothing is persisted.  For
every submission that does reach the handler (all seven lists
non-empty), at least one journal line is built and the only acceptance
check is the rounded debit/credit balance of the zipped lines — account
existence is not checked: acceptance appends the entry row and the
built lines (a line naming a nonexistent account included), rejection
leaves the store untouched. -/
theorem C4_handler_checks_balance_only (l : Ledger) (f : EntryForm)
    (hne : f.accounts ≠ [] ∧ f.descriptions ≠ [] ∧ f.debits ≠ [] ∧
      f.credits ≠ [] ∧ f.party_types ≠ [] ∧ f.party_ids ≠ [] ∧ f.qtys ≠ []) :
    formLines l f ≠ [] ∧
    ((create_entry l f).2 = CreateResult.ok ↔
      round2 (sumDebits (formLines l f)) = round2 (sumCredits (formLines l f))) ∧
    ((create_entry l f).2 = CreateResult.ok →
      (create_entry l f).1
        = { l with
            entries := l.entries ++ [{ id := nextEntryId l, date := f.date, memo := f.memo }],
            lines := l.lines ++ formLines l f }) ∧
    ((create_entry l f).2 = CreateResult.notBalanced → (create_entry l f).1 = l) := by
  obtain ⟨h1, h2, h3, h4, h5, h6, h7⟩ := hne
  refine ⟨?_, ?_⟩
  · obtain ⟨a, as, ha⟩ := List.exists_cons_of_ne_nil h1
    obtain ⟨d, ds, hd⟩ := List.exists_cons_of_ne_nil h2
    obtain ⟨dr, drs, hdr⟩ := List.exists_cons_of_ne_nil h3
    obtain ⟨cr, crs, hcr⟩ := List.exists_cons_of_ne_nil h4
    obtain ⟨pt, pts, hpt⟩ := List.exists_cons_of_ne_nil h5
    obtain ⟨pid, pids, hpid⟩ := List.exists_cons_of_ne_nil h6
    obtain ⟨q, qs, hq⟩ := List.exists_cons_of_ne_nil h7
    simp [formLines, ha, hd, hdr, hcr, hpt, hpid, hq, buildLines]
  · by_cases h : round2 (sumDebits (formLines l f)) = round2 (sumCredits (formLines l f))
    · simp [create_entry, h]
    · simp [create_entry, h]

theorem C4_handler_checks_balance_only_witness :
    (ghostForm.accounts ≠ [] ∧ ghostForm.descriptions ≠ [] ∧
      ghostForm.debits ≠ [] ∧ ghostForm.credits ≠ [] ∧
      ghostForm.party_types ≠ [] ∧ ghostForm.party_ids ≠ [] ∧
      ghostForm.qtys ≠ []) ∧
    (formLines emptyLedger ghostForm ≠ [] ∧
      ((create_entry emptyLedger ghostForm).2 = CreateResult.ok ↔
        round2 (sumDebits (formLines emptyLedger ghostForm))
          = round2 (sumCredits (formLines emptyLedger ghostForm))) ∧
      ((create_entry emptyLedger ghostForm).2 = CreateResult.ok →
        (create_entry emptyLedger ghostForm).1
          = { emptyLedger with
              entries := emptyLedger.entries ++
                [{ id := nextEntryId emptyLedger, date := ghostForm.date,
                   memo := ghostForm.memo }],
              lines := emptyLedger.lines ++ formLines emptyLedger ghostForm }) ∧
      ((create_entry emptyLedger ghostForm).2 = CreateResult.notBalanced →
        (create_entry emptyLedger ghostForm).1 = emptyLedger)) :=
  ⟨by decide, C4_handler_checks_balance_only emptyLedger ghostForm (by decide)⟩

/-- A store with one account referenced by one journal line of one
entry. -/
def c5Ledger : Ledger :=
  { accounts := [
      { id := 1, code := "1000", name := "Cash", type := "ASSET",
        subtype := none, description := "" }],
    entries := [{ id := 1, date := 5, memo := "" }],
    lines := [
      { id := 1, entry_id := 1, account_id := 1, description := "",
        debit := 50, credit := 0, party_type := none, party_id := none, qty := 0 }] }

/-- C5: evaluation at the failing input.  Deleting the journal entry
does cascade-delete its line (first conjunct on `delete_entry`), but an
ORM-level account deletion also deletes the referencing line — the
`cascade="all, delete-orphan"` declared on `Account.lines`
(src/models.py:27) contradicts the RESTRICT intent declared on the
`account_id` foreign key (src/models.py:42): the line vanishes instead
of the deletion being rejected. -/
theorem C5_account_delete_removes_line :
    c5Ledger.lines ≠ [] ∧
    delete_account_orm c5Ledger 1
      = { accounts := [], entries := c5Ledger.entries, lines := [] } ∧
    (delete_entry c5Ledger 1).1.lines = [] := by
  refine ⟨?_, ?_, ?_⟩ <;> decide

/-- C6: the normalized balance of the Balance Calculator is `dr - cr`
for debit-normal account types (ASSET, EXPENSE) and `cr - dr` for
credit-normal ones (LIABILITY, EQUITY, INCOME), where `dr`/`cr` sum the
account's line debits/credits over entries dated in the (inclusive)
window — both for `utils.account_balance_normal` over any window shape
and for the balance sheet's `account_balance` over `(-inf, as_of]`. -/
theorem C6_normalized_balance (l : Ledger) (acc : Account) (s e : Option Int)
    (hacc : acc ∈ l.accounts)
    (hfk : ∀ jl ∈ l.lines, ∃ en ∈ l.entries, en.id = jl.entry_id) :
    ((acc.type = "ASSET" ∨ acc.type = "EXPENSE") →
        (account_balance_normal l acc s e).normal_balance
          = accDr l s e acc.id - accCr l s e acc.id) ∧
    ((acc.type = "LIABILITY" ∨ acc.type = "EQUITY" ∨ acc.type = "INCOME") →
        (account_balance_normal l acc s e).normal_balance
          = accCr l s e acc.id - accDr l s e acc.id) ∧
    (∀ d : Int, (acc.type = "ASSET" ∨ acc.type = "EXPENSE") →
        bsAccountBalance l d acc
          = accDr l none (some d) acc.id - accCr l none (some d) acc.id) ∧
    (∀ d : Int, (acc.type = "LIABILITY" ∨ acc.type = "EQUITY" ∨ acc.type = "INCOME") →
        bsAccountBalance l d acc
          = accCr l none (some d) acc.id - accDr l none (some d) acc.id) := by
  have hfilter1 : (l.lines.filter fun jl =>
        jl.account_id == acc.id &&
        (l.accounts.any fun a => a.id == jl.account_id) &&
        entryInRange l s e jl.entry_id)
      = l.lines.filter fun jl =>
          jl.account_id == acc.id && entryInRange l s e jl.entry_id := by
    apply List.filter_congr
    intro jl _
    cases hid : jl.account_id == acc.id
    · simp
    · have hany : (l.accounts.any fun a => a.id == jl.account_id) = true := by
        refine List.any_eq_true.mpr ⟨acc, hacc, ?_⟩
        rw [beq_iff_eq] at hid ⊢
        exact hid.symm
      simp [hany]
  have hfilter2 : (l.lines.filter fun jl => jl.account_id == acc.id)
      = l.lines.filter fun jl =>
          jl.account_id == acc.id && entryInRange l none none jl.entry_id := by
    apply List.filter_congr
    intro jl hjl
    obtain ⟨en, hen, henid⟩ := hfk jl hjl
    have hin : entryInRange l none none jl.entry_id = true := by
      refine List.any_eq_true.mpr ⟨en, hen, ?_⟩
      simp [dateInRange, henid]
    rw [hin, Bool.and_true]
  have habn : (account_balance_normal l acc s e).normal_balance
      = (if DEBIT_NORMAL.contains acc.type then
          accDr l s e acc.id - accCr l s e acc.id
        else accCr l s e acc.id - accDr l s e acc.id) := by
    cases s <;> cases e <;>
      simp only [account_balance_normal, accDr, accCr, Option.isSome_none,
        Option.isSome_some, Bool.or_self, Bool.or_true, Bool.true_or,
        Bool.false_or, if_true, if_false, hfilter1, hfilter2, Bool.not_eq_true,
        ite_self] <;>
      split <;>
      simp only [sumDebits, sumCredits] <;>
      ring
  refine ⟨?_, ?_, ?_, ?_⟩
  · intro h
    have hdn : DEBIT_NORMAL.contains acc.type = true := by
      rcases h with h | h <;> simp [DEBIT_NORMAL, h]
    rw [habn, if_pos hdn]
  · intro h
    have hdn : DEBIT_NORMAL.contains acc.type = false := by
      rcases h with h | h | h <;> simp [DEBIT_NORMAL, h]
    rw [habn, if_neg (by rw [hdn]; exact Bool.false_ne_true)]
  · intro d h
    rcases h with h | h <;> simp [bsAccountBalance, h]
  · intro d h
    rcases h with h | h | h <;> simp [bsAccountBalance, h]

/-- The Cash account of `sampleLedger`. -/
def cashAccount : Account :=
  { id := 1, code := "1000", name := "Cash", type := "ASSET",
    subtype := none, description := "" }

theorem C6_normalized_balance_witness :
    (cashAccount ∈ sampleLedger.accounts ∧
      ∀ jl ∈ sampleLedger.lines, ∃ en ∈ sampleLedger.entries, en.id = jl.entry_id) ∧
    (((cashAccount.type = "ASSET" ∨ cashAccount.type = "EXPENSE") →
        (account_balance_normal sampleLedger cashAccount (some 1) (some 31)).normal_balance
          = accDr sampleLedger (some 1) (some 31) cashAccount.id
            - accCr sampleLedger (some 1) (some 31) cashAccount.id) ∧
      ((cashAccount.type = "LIABILITY" ∨ cashAccount.type = "EQUITY" ∨
            cashAccount.type = "INCOME") →
        (account_balance_normal sampleLedger cashAccount (some 1) (some 31)).normal_balance
          = accCr sampleLedger (some 1) (some 31) cashAccount.id
            - accDr sampleLedger (some 1) (some 31) cashAccount.id) ∧
      (∀ d : Int, (cashAccount.type = "ASSET" ∨ cashAccount.type = "EXPENSE") →
        bsAccountBalance sampleLedger d cashAccount
          = accDr sampleLedger none (some d) cashAccount.id
            - accCr sampleLedger none (some d) cashAccount.id) ∧
      (∀ d : Int, (cashAccount.type = "LIABILITY" ∨ cashAccount.type = "EQUITY" ∨
            cashAccount.type = "INCOME") →
        bsAccountBalance sampleLedger d cashAccount
          = accCr sampleLedger none (some d) cashAccount.id
            - accDr sampleLedger none (some d) cashAccount.id)) :=
  ⟨⟨by decide, by decide⟩,
    C6_normalized_balance sampleLedger cashAccount (some 1) (some 31)
      (by decide) (by decide)⟩

/-- Spec-side reading of C7: `income = Σ credit` over the INCOME
accounts, account by account, over entries dated in `[start, end]`. -/
def specIncome (l : Ledger) (sd ed : Int) : ℚ :=
  ((l.accounts.filter fun a => a.type == "INCOME").map fun a =>
    accCr l (some sd) (some ed) a.id).sum

/-- Spec-side reading of C7: `cogs = Σ debit` over the account(s) whose
`code` is the hard-wired "5000", over entries dated in `[start, end]`. -/
def specCogs (l : Ledger) (sd ed : Int) : ℚ :=
  ((l.accounts.filter fun a => a.code == "5000").map fun a =>
    accDr l (some sd) (some ed) a.id).sum

/-- Spec-side reading of C7: `other_exp = Σ debit` over the EXPENSE
accounts other than code "5000", over entries dated in `[start, end]`. -/
def specOtherExp (l : Ledger) (sd ed : Int) : ℚ :=
  ((l.accounts.filter fun a => a.type == "EXPENSE" && a.code != "5000").map fun a =>
    accDr l (some sd) (some ed) a.id).sum

theorem spec_sum_eq (l : Ledger) (sd ed : Int) (p : Account → Bool)
    (f : JournalLine → ℚ) (hnd : (l.accounts.map fun a => a.id).Nodup) :
    ((l.accounts.filter p).map fun a =>
        ((l.lines.filter fun jl =>
            jl.account_id == a.id &&
              entryInRange l (some sd) (some ed) jl.entry_id).map f).sum).sum
      = ((l.lines.filter fun jl =>
            accountMatch l p jl.account_id &&
              entryInRange l (some sd) (some ed) jl.entry_id).map f).sum := by
  have hnd' : ((l.accounts.filter p).map fun a => a.id).Nodup :=
    hnd.sublist ((List.filter_sublist _).map _)
  rw [sum_over_accounts l _ _ _ hnd' f]
  congr 1
  congr 1
  apply List.filter_congr
  intro jl _
  congr 1
  rw [Bool.eq_iff_iff]
  simp only [accountMatch, List.any_eq_true, List.mem_filter,
    Bool.and_eq_true, beq_iff_eq]
  constructor
  · rintro ⟨a, ⟨ha, hp⟩, hk⟩
    exact ⟨a, ha, hk.symm, hp⟩
  · rintro ⟨a, ha, hk, hp⟩
    exact ⟨a, ⟨ha, hp⟩, hk.symm⟩

/-- C7: with both bounds present the income statement returns exactly
`income` (credits over INCOME accounts in range), `cogs` (debits over
the code-"5000" account in range), `other_exp` (debits over the other
EXPENSE accounts in range), `gross_profit = income - cogs` and
`net_profit = gross_profit - other_exp`; with either bound missing it
returns the all-zero report instead of erroring. -/
theorem C7_income_statement (l : Ledger) (sd ed : Int) (s' e' : Option Int)
    (hnd : (l.accounts.map fun a => a.id).Nodup) :
    income_statement l (some sd) (some ed)
      = { income := specIncome l sd ed, cogs := specCogs l sd ed,
          other_exp := specOtherExp l sd ed,
          gross_profit := specIncome l sd ed - specCogs l sd ed,
          net_profit := specIncome l sd ed - specCogs l sd ed - specOtherExp l sd ed } ∧
    income_statement l none e'
      = { income := 0, cogs := 0, other_exp := 0, gross_profit := 0, net_profit := 0 } ∧
    income_statement l s' none
      = { income := 0, cogs := 0, other_exp := 0, gross_profit := 0, net_profit := 0 } := by
  refine ⟨?_, rfl, ?_⟩
  · have hI : specIncome l sd ed
        = sumCredits (l.lines.filter fun jl =>
            accountMatch l (fun a => a.type == "INCOME") jl.account_id &&
              entryInRange l (some sd) (some ed) jl.entry_id) :=
      spec_sum_eq l sd ed _ _ hnd
    have hC : specCogs l sd ed
        = sumDebits (l.lines.filter fun jl =>
            accountMatch l (fun a => a.code == "5000") jl.account_id &&
              entryInRange l (some sd) (some ed) jl.entry_id) :=
      spec_sum_eq l sd ed _ _ hnd
    have hO : specOtherExp l sd ed
        = sumDebits (l.lines.filter fun jl =>
            accountMatch l (fun a => a.type == "EXPENSE" && a.code != "5000") jl.account_id &&
              entryInRange l (some sd) (some ed) jl.entry_id) :=
      spec_sum_eq l sd ed _ _ hnd
    rw [hI, hC, hO]
    rfl
  · cases s' <;> rfl

theorem C7_income_statement_witness :
    ((sampleLedger.accounts.map fun a => a.id).Nodup) ∧
    income_statement sampleLedger (some 1) (some 31)
      = { income := specIncome sampleLedger 1 31, cogs := specCogs sampleLedger 1 31,
          other_exp := specOtherExp sampleLedger 1 31,
          gross_profit := specIncome sampleLedger 1 31 - specCogs sampleLedger 1 31,
          net_profit := specIncome sampleLedger 1 31 - specCogs sampleLedger 1 31
            - specOtherExp sampleLedger 1 31 } ∧
    income_statement sampleLedger none (some 31)
      = { income := 0, cogs := 0, other_exp := 0, gross_profit := 0, net_profit := 0 } ∧
    income_statement sampleLedger (some 1) none
      = { income := 0, cogs := 0, other_exp := 0, gross_profit := 0, net_profit := 0 } :=
  ⟨by decide, C7_income_statement sampleLedger 1 31 none (some 1) (by decide)⟩

/-- A 2-decimal monetary amount: an integer number of cents, as stored
by the `Numeric(14, 2)` columns of src/models.py. -/
def isPenny (x : ℚ) : Prop := ∃ n : ℤ, x = n / 100

theorem isPenny_zero : isPenny 0 := ⟨0, by norm_num⟩

theorem isPenny_add {x y : ℚ} (hx : isPenny x) (hy : isPenny y) : isPenny (x + y) := by
  obtain ⟨a, rfl⟩ := hx
  obtain ⟨b, rfl⟩ := hy
  exact ⟨a + b, by push_cast; ring⟩

theorem isPenny_neg {x : ℚ} (hx : isPenny x) : isPenny (-x) := by
  obtain ⟨a, rfl⟩ := hx
  exact ⟨-a, by push_cast; ring⟩

theorem isPenny_sub {x y : ℚ} (hx : isPenny x) (hy : isPenny y) : isPenny (x - y) := by
  rw [sub_eq_add_neg]
  exact isPenny_add hx (isPenny_neg hy)

theorem isPenny_sum (xs : List ℚ) (h : ∀ x ∈ xs, isPenny x) : isPenny xs.sum := by
  induction xs with
  | nil => exact isPenny_zero
  | cons x xs ih =>
    rw [List.sum_cons]
    exact isPenny_add (h x (by simp)) (ih fun y hy => h y (by simp [hy]))

theorem isPenny_small {x : ℚ} (hx : isPenny x) (h : |x| < 1 / 100) : x = 0 := by
  obtain ⟨n, rfl⟩ := hx
  have h1 : |(n : ℚ)| < 1 := by
    rw [abs_div] at h
    have h100 : |(100 : ℚ)| = 100 := by norm_num
    rw [h100, div_lt_div_iff₀ (by norm_num) (by norm_num)] at h
    linarith
  have h2 : |n| < 1 := by exact_mod_cast h1
  have h3 : n = 0 := Int.abs_lt_one_iff.mp h2
  rw [h3]; norm_num

theorem isPenny_accDr (l : Ledger) (s e : Option Int) (k : Nat)
    (hp : ∀ jl ∈ l.lines, isPenny jl.debit ∧ isPenny jl.credit) :
    isPenny (accDr l s e k) := by
  apply isPenny_sum
  intro x hx
  obtain ⟨jl, hjl, rfl⟩ := List.mem_map.mp hx
  exact (hp jl (List.mem_of_mem_filter hjl)).1

theorem isPenny_accCr (l : Ledger) (s e : Option Int) (k : Nat)
    (hp : ∀ jl ∈ l.lines, isPenny jl.debit ∧ isPenny jl.credit) :
    isPenny (accCr l s e k) := by
  apply isPenny_sum
  intro x hx
  obtain ⟨jl, hjl, rfl⟩ := List.mem_map.mp hx
  exact (hp jl (List.mem_of_mem_filter hjl)).2

/-- On a store of 2-decimal amounts, an account dropped by the 0.01
materiality filter has an exactly zero raw balance. -/
theorem raw_zero_of_small (l : Ledger) (d : Int) (acc : Account)
    (hp : ∀ jl ∈ l.lines, isPenny jl.debit ∧ isPenny jl.credit)
    (hsmall : |bsAccountBalance l d acc| < 1 / 100) :
    accDr l none (some d) acc.id - accCr l none (some d) acc.id = 0 := by
  have hdr := isPenny_accDr l none (some d) acc.id hp
  have hcr := isPenny_accCr l none (some d) acc.id hp
  by_cases hb : (acc.type == "ASSET" || acc.type == "EXPENSE") = true
  · have hbal : bsAccountBalance l d acc
        = accDr l none (some d) acc.id - accCr l none (some d) acc.id := by
      simp only [bsAccountBalance, hb, if_true]
    rw [hbal] at hsmall
    exact isPenny_small (isPenny_sub hdr hcr) hsmall
  · have hbal : bsAccountBalance l d acc
        = accCr l none (some d) acc.id - accDr l none (some d) acc.id := by
      simp only [bsAccountBalance, hb, if_false, Bool.false_eq_true]
    rw [hbal] at hsmall
    have h0 := isPenny_small (isPenny_sub hcr hdr) hsmall
    linarith

/-- The quantity conserved by the `balance_sheet` bucketing loop:
assets minus liabilities minus capital minus retained earnings. -/
def bsAccumVal (st : BSAccum) : ℚ :=
  ((st.assets_current ++ st.assets_non_current).map Prod.snd).sum
    - ((st.liab_current ++ st.liab_non_current).map Prod.snd).sum
    - (st.equity_capital.map Prod.snd).sum
    - st.retained_earnings

theorem bsStep_val (l : Ledger) (d : Int) (st : BSAccum) (acc : Account)
    (htype : acc.type = "ASSET" ∨ acc.type = "LIABILITY" ∨ acc.type = "EQUITY" ∨
      acc.type = "INCOME" ∨ acc.type = "EXPENSE")
    (hsubA : acc.type = "ASSET" →
      acc.subtype = some "CURRENT_ASSET" ∨ acc.subtype = some "NON_CURRENT_ASSET")
    (hsubL : acc.type = "LIABILITY" →
      acc.subtype = some "CURRENT_LIABILITY" ∨ acc.subtype = some "NON_CURRENT_LIABILITY")
    (hsubE : acc.type = "EQUITY" →
      acc.subtype = some "CAPITAL" ∨ acc.subtype = some "RETAINED_EARNINGS")
    (hzero : |bsAccountBalance l d acc| < 1 / 100 →
      accDr l none (some d) acc.id - accCr l none (some d) acc.id = 0) :
    bsAccumVal (bsStep l d st acc)
      = bsAccumVal st + (accDr l none (some d) acc.id - accCr l none (some d) acc.id) := by
  by_cases hsmall : |bsAccountBalance l d acc| < 1 / 100
  · rw [hzero hsmall]
    simp only [bsStep]
    rw [if_pos hsmall, add_zero]
  · rcases htype with h | h | h | h | h
    · have hb : bsAccountBalance l d acc
          = accDr l none (some d) acc.id - accCr l none (some d) acc.id := by
        simp [bsAccountBalance, h]
      rcases hsubA h with hs | hs <;>
      · simp only [bsStep]
        rw [if_neg hsmall]
        simp [h, hs, bsAccumVal, hb]
        ring
    · have hb : bsAccountBalance l d acc
          = accCr l none (some d) acc.id - accDr l none (some d) acc.id := by
        simp [bsAccountBalance, h]
      rcases hsubL h with hs | hs <;>
      · simp only [bsStep]
        rw [if_neg hsmall]
        simp [h, hs, bsAccumVal, hb]
        ring
    · have hb : bsAccountBalance l d acc
          = accCr l none (some d) acc.id - accDr l none (some d) acc.id := by
        simp [bsAccountBalance, h]
      rcases hsubE h with hs | hs <;>
      · simp only [bsStep]
        rw [if_neg hsmall]
        simp [h, hs, bsAccumVal, hb]
        ring
    · have hb : bsAccountBalance l d acc
          = accCr l none (some d) acc.id - accDr l none (some d) acc.id := by
        simp [bsAccountBalance, h]
      simp only [bsStep]
      rw [if_neg hsmall]
      simp [h, bsAccumVal, hb]
      ring
    · have hb : bsAccountBalance l d acc
          = accDr l none (some d) acc.id - accCr l none (some d) acc.id := by
        simp [bsAccountBalance, h]
      simp only [bsStep]
      rw [if_neg hsmall]
      simp [h, bsAccumVal, hb]
      ring

theorem bs_fold_val (l : Ledger) (d : Int) :
    ∀ (accs : List Account) (st : BSAccum),
      (∀ acc ∈ accs,
        (acc.type = "ASSET" ∨ acc.type = "LIABILITY" ∨ acc.type = "EQUITY" ∨
          acc.type = "INCOME" ∨ acc.type = "EXPENSE") ∧
        (acc.type = "ASSET" →
          acc.subtype = some "CURRENT_ASSET" ∨ acc.subtype = some "NON_CURRENT_ASSET") ∧
        (acc.type = "LIABILITY" →
          acc.subtype = some "CURRENT_LIABILITY" ∨ acc.subtype = some "NON_CURRENT_LIABILITY") ∧
        (acc.type = "EQUITY" →
          acc.subtype = some "CAPITAL" ∨ acc.subtype = some "RETAINED_EARNINGS") ∧
        (|bsAccountBalance l d acc| < 1 / 100 →
          accDr l none (some d) acc.id - accCr l none (some d) acc.id = 0)) →
      bsAccumVal (accs.foldl (bsStep l d) st)
        = bsAccumVal st
          + (accs.map fun acc =>
              accDr l none (some d) acc.id - accCr l none (some d) acc.id).sum := by
  intro accs
  induction accs with
  | nil => intro st _; simp
  | cons acc accs ih =>
    intro st h
    obtain ⟨h1, h2, h3, h4, h5⟩ := h acc (by simp)
    have hrest := fun a (ha : a ∈ accs) => h a (List.mem_cons_of_mem acc ha)
    rw [List.foldl_cons, ih _ hrest, bsStep_val l d st acc h1 h2 h3 h4 h5,
      List.map_cons, List.sum_cons]
    ring

/-- C3 fails on the code as stated: `sampleLedger` is well formed and
every entry balances, yet the seeded-style accounts carry no subtype,
so Cash (balance 100) is excluded from `assets_total` while the Sales
income still lands in retained earnings: `assets_total = 0` but
`liab_equity_total = 100`. -/
theorem C3_balance_sheet_counterexample :
    sampleLedger.WellFormed ∧ sampleLedger.Balanced ∧
    (balance_sheet sampleLedger (some 10)).assets_total = 0 ∧
    (balance_sheet sampleLedger (some 10)).liab_equity_total = 100 ∧
    (balance_sheet sampleLedger (some 10)).assets_total
      ≠ (balance_sheet sampleLedger (some 10)).liab_equity_total := by
  have hA : (balance_sheet sampleLedger (some 10)).assets_total = 0 := by
    simp [balance_sheet, bsStep, bsAccountBalance, accDr, accCr, sumDebits,
      sumCredits, entryInRange, dateInRange, sampleLedger]
    norm_num
  have hL : (balance_sheet sampleLedger (some 10)).liab_equity_total = 100 := by
    simp [balance_sheet, bsStep, bsAccountBalance, accDr, accCr, sumDebits,
      sumCredits, entryInRange, dateInRange, sampleLedger]
    norm_num
  refine ⟨sampleLedger_wellFormed, sampleLedger_balanced, hA, hL, ?_⟩
  rw [hA, hL]
  norm_num

/-- C3 (amended): on a well-formed, balanced store whose line amounts
are all whole multiples of 0.01, whose account types all belong to the
five fixed kinds, and whose ASSET/LIABILITY/EQUITY accounts all carry a
subtype recognized by the report's buckets, the balance sheet satisfies
the accounting equation `assets_total = liab_equity_total` for every
`as_of` date. -/
theorem C3_balance_sheet_identity (l : Ledger) (d : Int)
    (hwf : l.WellFormed) (hbal : l.Balanced)
    (hpenny : ∀ jl ∈ l.lines, isPenny jl.debit ∧ isPenny jl.credit)
    (htype : ∀ a ∈ l.accounts,
      a.type = "ASSET" ∨ a.type = "LIABILITY" ∨ a.type = "EQUITY" ∨
        a.type = "INCOME" ∨ a.type = "EXPENSE")
    (hsub : ∀ a ∈ l.accounts,
      (a.type = "ASSET" →
        a.subtype = some "CURRENT_ASSET" ∨ a.subtype = some "NON_CURRENT_ASSET") ∧
      (a.type = "LIABILITY" →
        a.subtype = some "CURRENT_LIABILITY" ∨ a.subtype = some "NON_CURRENT_LIABILITY") ∧
      (a.type = "EQUITY" →
        a.subtype = some "CAPITAL" ∨ a.subtype = some "RETAINED_EARNINGS")) :
    (balance_sheet l (some d)).assets_total
      = (balance_sheet l (some d)).liab_equity_total := by
  have hfold := bs_fold_val l d l.accounts
    { assets_current := [], assets_non_current := [], liab_current := [],
      liab_non_current := [], equity_capital := [], retained_earnings := 0 }
    (fun a ha => ⟨htype a ha, (hsub a ha).1, (hsub a ha).2.1, (hsub a ha).2.2,
      fun hsmall => raw_zero_of_small l d a hpenny hsmall⟩)
  have hnet := raw_net_zero l none (some d) hwf hbal
  rw [hnet] at hfold
  have hinit : bsAccumVal
      { assets_current := [], assets_non_current := [], liab_current := [],
        liab_non_current := [], equity_capital := [], retained_earnings := 0 } = 0 := by
    simp [bsAccumVal]
  rw [hinit] at hfold
  have hval : bsAccumVal (l.accounts.foldl (bsStep l d)
      { assets_current := [], assets_non_current := [], liab_current := [],
        liab_non_current := [], equity_capital := [], retained_earnings := 0 }) = 0 := by
    rw [hfold]; ring
  have hAT : (balance_sheet l (some d)).assets_total
      = (((l.accounts.foldl (bsStep l d)
          { assets_current := [], assets_non_current := [], liab_current := [],
            liab_non_current := [], equity_capital := [],
            retained_earnings := 0 }).assets_current
        ++ (l.accounts.foldl (bsStep l d)
          { assets_current := [], assets_non_current := [], liab_current := [],
            liab_non_current := [], equity_capital := [],
            retained_earnings := 0 }).assets_non_current).map Prod.snd).sum := rfl
  have hLE : (balance_sheet l (some d)).liab_equity_total
      = (((l.accounts.foldl (bsStep l d)
          { assets_current := [], assets_non_current := [], liab_current := [],
            liab_non_current := [], equity_capital := [],
            retained_earnings := 0 }).liab_current
        ++ (l.accounts.foldl (bsStep l d)
          { assets_current := [], assets_non_current := [], liab_current := [],
            liab_non_current := [], equity_capital := [],
            retained_earnings := 0 }).liab_non_current).map Prod.snd).sum
      + (((l.accounts.foldl (bsStep l d)
          { assets_current := [], assets_non_current := [], liab_current := [],
            liab_non_current := [], equity_capital := [],
            retained_earnings := 0 }).equity_capital.map Prod.snd).sum
        + (l.accounts.foldl (bsStep l d)
          { assets_current := [], assets_non_current := [], liab_current := [],
            liab_non_current := [], equity_capital := [],
            retained_earnings := 0 }).retained_earnings) := rfl
  rw [hAT, hLE]
  unfold bsAccumVal at hval
  linarith [hval]

/-- `sampleLedger` with the recognized CURRENT_ASSET subtype on Cash. -/
def subtypedLedger : Ledger :=
  { accounts := [
      { id := 1, code := "1000", name := "Cash", type := "ASSET",
        subtype := some "CURRENT_ASSET", description := "" },
      { id := 2, code := "4000", name := "Sales", type := "INCOME",
        subtype := none, description := "" }],
    entries := [{ id := 1, date := 5, memo := "" }],
    lines := [
      { id := 1, entry_id := 1, account_id := 1, description := "",
        debit := 100, credit := 0, party_type := none, party_id := none, qty := 0 },
      { id := 2, entry_id := 1, account_id := 2, description := "",
        debit := 0, credit := 100, party_type := none, party_id := none, qty := 0 }] }

theorem subtypedLedger_wellFormed : subtypedLedger.WellFormed := by
  unfold Ledger.WellFormed
  decide

theorem subtypedLedger_balanced : subtypedLedger.Balanced := by
  intro en hen
  have : en = { id := 1, date := 5, memo := "" } := by
    simpa [subtypedLedger] using hen
  subst this
  simp [sumDebits, sumCredits, entryLines, subtypedLedger]

theorem subtypedLedger_penny :
    ∀ jl ∈ subtypedLedger.lines, isPenny jl.debit ∧ isPenny jl.credit := by
  intro jl hjl
  fin_cases hjl
  · exact ⟨⟨10000, by norm_num⟩, ⟨0, by norm_num⟩⟩
  · exact ⟨⟨0, by norm_num⟩, ⟨10000, by norm_num⟩⟩

theorem C3_balance_sheet_identity_witness :
    (subtypedLedger.WellFormed ∧ subtypedLedger.Balanced ∧
      (∀ jl ∈ subtypedLedger.lines, isPenny jl.debit ∧ isPenny jl.credit)) ∧
    (balance_sheet subtypedLedger (some 10)).assets_total
      = (balance_sheet subtypedLedger (some 10)).liab_equity_total :=
  ⟨⟨subtypedLedger_wellFormed, subtypedLedger_balanced, subtypedLedger_penny⟩,
    C3_balance_sheet_identity subtypedLedger 10
      subtypedLedger_wellFormed subtypedLedger_balanced subtypedLedger_penny
      (by decide) (by decide)⟩

/-- The `(type, subtype)` combinations that fall through every bucket
of the balance-sheet loop. -/
def bsExcluded (acc : Account) : Prop :=
  (acc.type = "ASSET" ∧ acc.subtype ≠ some "CURRENT_ASSET" ∧
    acc.subtype ≠ some "NON_CURRENT_ASSET") ∨
  (acc.type = "LIABILITY" ∧ acc.subtype ≠ some "CURRENT_LIABILITY" ∧
    acc.subtype ≠ some "NON_CURRENT_LIABILITY") ∨
  (acc.type = "EQUITY" ∧ acc.subtype ≠ some "CAPITAL" ∧
    acc.subtype ≠ some "RETAINED_EARNINGS")

theorem bsStep_excluded (l : Ledger) (d : Int) (st : BSAccum) (acc : Account)
    (h : bsExcluded acc) : bsStep l d st acc = st := by
  by_cases hsmall : |bsAccountBalance l d acc| < 1 / 100
  · simp only [bsStep]
    rw [if_pos hsmall]
  · simp only [bsStep]
    rw [if_neg hsmall]
    rcases h with ⟨ht, h1, h2⟩ | ⟨ht, h1, h2⟩ | ⟨ht, h1, h2⟩ <;>
      simp [ht, h1, h2]

/-- C9: an ASSET, LIABILITY or EQUITY account whose subtype is not one
of the recognized bucket subtypes (the seeded chart's accounts all have
an empty subtype) contributes to no bucket and to none of the totals of
the balance sheet, whatever its balance: the report is identical to the
report over the store without that account. -/
theorem C9_unbucketed_account_ignored (l : Ledger) (pre post : List Account)
    (acc : Account) (asOf : Option Int)
    (hacc : l.accounts = pre ++ acc :: post) (hexc : bsExcluded acc) :
    balance_sheet l asOf
      = balance_sheet { l with accounts := pre ++ post } asOf ∧
    ∀ a ∈ seedAccounts, a.subtype = none := by
  refine ⟨?_, by decide⟩
  cases asOf with
  | none => rfl
  | some d =>
    have hfold : ∀ st : BSAccum,
        (pre ++ acc :: post).foldl (bsStep l d) st
          = (pre ++ post).foldl (bsStep l d) st := by
      intro st
      rw [List.foldl_append, List.foldl_append, List.foldl_cons,
        bsStep_excluded l d _ acc hexc]
    show balance_sheet l (some d) = balance_sheet { l with accounts := pre ++ post } (some d)
    simp only [balance_sheet, hacc]
    rw [hfold]
    rfl

/-- The Sales account of `sampleLedger`. -/
def salesAccount : Account :=
  { id := 2, code := "4000", name := "Sales", type := "INCOME",
    subtype := none, description := "" }

theorem C9_unbucketed_account_ignored_witness :
    (sampleLedger.accounts = [] ++ cashAccount :: [salesAccount] ∧
      bsExcluded cashAccount) ∧
    (balance_sheet sampleLedger (some 10)
        = balance_sheet { sampleLedger with accounts := [] ++ [salesAccount] } (some 10) ∧
      ∀ a ∈ seedAccounts, a.subtype = none) :=
  ⟨⟨rfl, by unfold bsExcluded; decide⟩,
    C9_unbucketed_account_ignored sampleLedger [] [salesAccount] cashAccount
      (some 10) rfl (by unfold bsExcluded; decide)⟩

end PixiePinks
